import Mathlib

/-!
Shallow embedding of the mutation action layer of the `nextjs-dashboard`
repository (file `src/unnamed/part_000`): the server actions
`createInvoice`, `updateInvoice`, `deleteInvoice`, `createCustomer`,
`updateCustomer`, `deleteCustomer`, `isEmailUnique` and `authenticate`.

Modelling conventions:
- The relational store is a `DB` value (two lists of rows) threaded
  explicitly; each SQL statement becomes a pure transformation of it.
- Each SQL call site gets a `Bool` parameter stating whether that call
  throws; the `try`/`catch` structure of the source is reproduced exactly
  (a throwing call outside a `try` yields a `thrown` outcome).
- `revalidatePath` calls are recorded in order in a list; `redirect`
  aborts the action with a `redirected` outcome (in the framework it
  throws a navigation signal, so nothing after it runs).
- The clock is a parameter: `today` is the value the source computes as
  the current calendar-date string; the store-generated row id is the
  parameter `freshId`.
- JavaScript numbers are IEEE-754 binary64 values, modelled exactly:
  `JsVal` is an exact rational (every finite double is one), and every
  arithmetic step rounds to the nearest double (`floatRound`), ties to
  even. Overflow to infinity is outside the model (all values in this
  development stay far below 2^1024).
-/

namespace Dashboard

/-- A finite JavaScript number (an IEEE-754 binary64 value), represented
exactly as a signed numerator over a positive denominator. Every value the
model constructs has a positive power-of-two or power-of-ten denominator. -/
structure JsVal where
  num : Int
  den : Nat
  deriving DecidableEq, Repr

/-- The rational value of a `JsVal` (used in statements). -/
def JsVal.toRat (v : JsVal) : ℚ := (v.num : ℚ) / (v.den : ℚ)

/-- The JavaScript number of an integer. -/
def JsVal.ofInt (n : Int) : JsVal := ⟨n, 1⟩

/-- Exact strict comparison `a > b` (denominators are positive). -/
def JsVal.gt (a b : JsVal) : Bool := b.num * a.den < a.num * b.den

/-- Fueled floor of the base-2 logarithm: `log2F fuel n` is correct for
`n ≥ 1` whenever `fuel` is at least the number of halvings to reach 1. -/
def log2F : Nat → Nat → Nat
  | 0, _ => 0
  | fuel + 1, n => if 2 ≤ n then log2F fuel (n / 2) + 1 else 0

/-- Floor of the base-2 logarithm of the positive rational `n / d`. -/
def ratLog2 (n d : Nat) : Int :=
  if d ≤ n then (log2F n (n / d) : Int)
  else
    let m := log2F d (d / n)
    if n * 2 ^ m = d then -(m : Int) else -((m : Int) + 1)

/-- Nearest integer to `n / d` (`d > 0`), ties to the even integer. -/
def roundHalfEven (n : Int) (d : Nat) : Int :=
  let q := n.fdiv d
  let r := n - q * d
  if 2 * r < d then q
  else if (d : Int) < 2 * r then q + 1
  else if q % 2 = 0 then q else q + 1

/-- Write the dyadic rational `m / 2^k` with the factors of two cancelled. -/
def canonDyadic : Int → Nat → JsVal
  | m, 0 => ⟨m, 1⟩
  | m, k + 1 => if m % 2 = 0 then canonDyadic (m / 2) k else ⟨m, 2 ^ (k + 1)⟩

/-- Round the positive rational `n / d` (`n, d ≥ 1`) to the nearest IEEE-754
binary64 value, ties to even, with subnormal granularity `2^-1074` below
`2^-1022`. Overflow to infinity is outside the model. -/
def floatRoundPos (n d : Nat) : JsVal :=
  let e := ratLog2 n d
  let g : Int := max (e - 52) (-1074)
  if g ≤ 0 then
    canonDyadic (roundHalfEven ((n : Int) * 2 ^ (-g).toNat) d) (-g).toNat
  else
    ⟨roundHalfEven n (d * 2 ^ g.toNat) * 2 ^ g.toNat, 1⟩

/-- Round an exact rational to the nearest IEEE-754 binary64 value. -/
def floatRound (v : JsVal) : JsVal :=
  if v.num = 0 then ⟨0, 1⟩
  else if 0 < v.num then floatRoundPos v.num.toNat v.den
  else
    let r := floatRoundPos (-v.num).toNat v.den
    ⟨-r.num, r.den⟩

/-- JavaScript multiplication: exact product, rounded to the nearest double. -/
def jsMul (a b : JsVal) : JsVal := floatRound ⟨a.num * b.num, a.den * b.den⟩

/-! String scanning helpers, over `List Char` (the `data` of a `String`). -/

/-- Strip leading and trailing whitespace. -/
def trimWS (cs : List Char) : List Char :=
  ((cs.dropWhile Char.isWhitespace).reverse.dropWhile Char.isWhitespace).reverse

/-- Split off the leading run of decimal digits. -/
def spanDigits : List Char → List Char × List Char
  | [] => ([], [])
  | c :: cs =>
    if c.isDigit then
      let p := spanDigits cs
      (c :: p.1, p.2)
    else ([], c :: cs)

/-- Numeric value of a digit character. -/
def digitVal (c : Char) : Nat := c.toNat - 48

/-- Numeric value of a run of digit characters (most significant first). -/
def digitsVal (acc : Nat) : List Char → Nat
  | [] => acc
  | c :: cs => digitsVal (acc * 10 + digitVal c) cs

/-- Parse the mantissa of a decimal numeral: digits with an optional point
and fraction digits (at least one digit overall). Returns the digits as an
integer, the number of fraction digits, and the unconsumed rest. -/
def parseMantissa (cs : List Char) : Option ((Nat × Nat) × List Char) :=
  let p := spanDigits cs
  match p.2 with
  | '.' :: r2 =>
    let q := spanDigits r2
    if p.1 = [] ∧ q.1 = [] then none
    else some ((digitsVal 0 (p.1 ++ q.1), q.1.length), q.2)
  | _ => if p.1 = [] then none else some ((digitsVal 0 p.1, 0), p.2)

/-- Parse an optionally signed run of digits filling the whole input. -/
def parseSignedDigits : List Char → Option Int
  | [] => none
  | '+' :: ds => if ds ≠ [] ∧ ds.all Char.isDigit then some (digitsVal 0 ds) else none
  | '-' :: ds => if ds ≠ [] ∧ ds.all Char.isDigit then some (-(digitsVal 0 ds : Int)) else none
  | ds => if ds.all Char.isDigit then some (digitsVal 0 ds) else none

/-- Exact rational value of the numeral `m / 10^f · 10^e`. -/
def mkNumeral (m f : Nat) (e : Int) : JsVal :=
  let p : Int := e - (f : Int)
  if 0 ≤ p then ⟨(m : Int) * 10 ^ p.toNat, 1⟩ else ⟨(m : Int), 10 ^ (-p).toNat⟩

/-- Parse an unsigned decimal numeral with an optional exponent part,
consuming the whole input. -/
def parseNumeral (cs : List Char) : Option JsVal :=
  match parseMantissa cs with
  | none => none
  | some ((m, f), rest) =>
    match rest with
    | [] => some (mkNumeral m f 0)
    | c :: ds =>
      if c = 'e' ∨ c = 'E' then
        match parseSignedDigits ds with
        | some e => some (mkNumeral m f e)
        | none => none
      else none

/-- Parse a decimal numeral with an optional leading sign. -/
def parseSignedNumeral : List Char → Option JsVal
  | '+' :: cs => parseNumeral cs
  | '-' :: cs => (parseNumeral cs).map (fun v => ⟨-v.num, v.den⟩)
  | cs => parseNumeral cs

/-- Result of the JavaScript `Number(x)` conversion: not-a-number, or a
finite double. -/
inductive JsNum where
  | nan
  | val (v : JsVal)
  deriving DecidableEq, Repr

/-- Model of the JavaScript `Number(x)` conversion for the values a
`FormData` field takes: `null` (an absent field) gives `0`; a string is
trimmed, an empty remainder gives `0`, a decimal numeral (optional sign,
digits with optional fraction, optional exponent) gives the nearest double,
and anything else gives NaN. Hexadecimal, octal and binary literals and the
`Infinity` literal are outside the model. -/
def jsNumber : Option String → JsNum
  | none => .val ⟨0, 1⟩
  | some s =>
    let cs := trimWS s.data
    if cs = [] then .val ⟨0, 1⟩
    else
      match parseSignedNumeral cs with
      | some v => .val (floatRound v)
      | none => .nan

/-! Validation, modelling the external schema validator as configured by
the source: `FormSchema` (invoice) and `CustomerFormSchema` (customer). -/

/-- An invoice form submission: the three fields read from `FormData`
(`FormData.get` returns `null` for an absent field, modelled as `none`). -/
structure InvoiceForm where
  customerId : Option String
  amount : Option String
  status : Option String
  deriving DecidableEq

/-- Flattened field errors of invoice validation (an empty list means the
field is absent from the error mapping). -/
structure InvoiceFieldErrors where
  customerId : List String
  amount : List String
  status : List String
  deriving DecidableEq

/-- Errors of the `customerId` field: a string is required, with the
configured invalid-type message. -/
def checkCustomerId : Option String → List String
  | none => ["Please select a customer."]
  | some _ => []

/-- Errors of the `amount` field: coerced with `Number(x)`, NaN is an
invalid type, and the coerced value must be greater than zero. -/
def checkAmount (a : Option String) : List String :=
  match jsNumber a with
  | .nan => ["Expected number, received nan"]
  | .val v => if v.gt (JsVal.ofInt 0) then [] else ["Please enter an amount greater than $0."]

/-- Errors of the `status` field: a value from the two-member enumeration
is required. -/
def checkStatus : Option String → List String
  | none => ["Please select an invoice status."]
  | some s =>
    if s = "pending" ∨ s = "paid" then []
    else ["Invalid enum value. Expected pending or paid, received " ++ s]

/-- All field errors of an invoice form, as the validator reports them. -/
def invoiceFormErrors (f : InvoiceForm) : InvoiceFieldErrors :=
  ⟨checkCustomerId f.customerId, checkAmount f.amount, checkStatus f.status⟩

/-- The validated data of an invoice form. -/
structure InvoiceData where
  customerId : String
  amount : JsVal
  status : String
  deriving DecidableEq

/-- Model of `CreateInvoice.safeParse` / `UpdateInvoice.safeParse`:
success exactly when no field has an error; the defaults in the success
branch are unreachable then. -/
def parseInvoiceForm (f : InvoiceForm) : Except InvoiceFieldErrors InvoiceData :=
  let e := invoiceFormErrors f
  if e.customerId = [] ∧ e.amount = [] ∧ e.status = [] then
    .ok ⟨f.customerId.getD "",
         (match jsNumber f.amount with | .val v => v | .nan => JsVal.ofInt 0),
         f.status.getD ""⟩
  else .error e

/-- A customer form submission. -/
structure CustomerForm where
  name : Option String
  email : Option String
  deriving DecidableEq

/-- Flattened field errors of customer validation. -/
structure CustomerFieldErrors where
  name : List String
  email : List String
  deriving DecidableEq

/-- Character class of the local part of an email address in the
validator's email syntax: ASCII alphanumerics, underscore, apostrophe
(code 39), plus, hyphen and dot. -/
def isLocalChar (c : Char) : Bool :=
  c.isAlphanum || c = '_' || c = '+' || c = '-' || c = '.' || c.toNat = 39

/-- Whether two consecutive dots occur. -/
def hasDoubleDot : List Char → Bool
  | '.' :: '.' :: _ => true
  | _ :: cs => hasDoubleDot cs
  | [] => false

/-- Valid local part: nonempty, only local characters, neither starting
nor ending with a dot, and no two consecutive dots. -/
def validLocalPart (cs : List Char) : Bool :=
  !cs.isEmpty && cs.all isLocalChar && !(cs.head? == some '.')
    && !(cs.getLast? == some '.') && !hasDoubleDot cs

/-- Split a character list on a separator character. -/
def splitOnChar (sep : Char) : List Char → List (List Char)
  | [] => [[]]
  | c :: cs =>
    let r := splitOnChar sep cs
    if c = sep then [] :: r
    else
      match r with
      | [] => [[c]]
      | g :: gs => (c :: g) :: gs

/-- Valid inner domain label: starts with an alphanumeric, continues with
alphanumerics or hyphens. -/
def validDomainLabel : List Char → Bool
  | [] => false
  | c :: rest => c.isAlphanum && rest.all (fun d => d.isAlphanum || d = '-')

/-- Valid top-level domain: at least two letters. -/
def validTld (cs : List Char) : Bool :=
  2 ≤ cs.length && cs.all Char.isAlpha

/-- Valid domain part: at least two dot-separated labels, the last a
top-level domain, the others domain labels. -/
def validDomainPart (cs : List Char) : Bool :=
  let labels := splitOnChar '.' cs
  2 ≤ labels.length && labels.dropLast.all validDomainLabel
    && (match labels.getLast? with
        | some t => validTld t
        | none => false)

/-- Model of the external schema validator's email-syntax check (the
`email()` refinement of the customer schema): one `@` separating a valid
local part from a valid domain part. -/
def isValidEmail (s : String) : Bool :=
  match splitOnChar '@' s.data with
  | [l, d] => validLocalPart l && validDomainPart d
  | _ => false

/-- Trim a string as the validator's `trim()` transform does. -/
def trimStr (s : String) : String := ⟨trimWS s.data⟩

/-- Errors of the `name` field: a string is required and must be nonempty
after trimming. -/
def checkName : Option String → List String
  | none => ["Expected string, received null"]
  | some s => if (trimStr s).data = [] then ["Name is required"] else []

/-- Errors of the `email` field: a string is required and must be a valid
email address after trimming. -/
def checkEmail : Option String → List String
  | none => ["Expected string, received null"]
  | some s => if isValidEmail (trimStr s) then [] else ["Invalid email address"]

/-- All field errors of a customer form. -/
def customerFormErrors (f : CustomerForm) : CustomerFieldErrors :=
  ⟨checkName f.name, checkEmail f.email⟩

/-- The validated data of a customer form; the `trim()` transform means
the validated values are the trimmed ones. -/
structure CustomerData where
  name : String
  email : String
  deriving DecidableEq

/-- Model of `CreateCustomer.safeParse` / `UpdateCustomer.safeParse`. -/
def parseCustomerForm (f : CustomerForm) : Except CustomerFieldErrors CustomerData :=
  let e := customerFormErrors f
  if e.name = [] ∧ e.email = [] then
    .ok ⟨trimStr (f.name.getD ""), trimStr (f.email.getD "")⟩
  else .error e

/-! The relational store and the action effects. -/

/-- A row of the `invoices` table. -/
structure Invoice where
  id : String
  customer_id : String
  amount : JsVal
  status : String
  date : String
  deriving DecidableEq

/-- A row of the `customers` table. -/
structure Customer where
  id : String
  name : String
  email : String
  image_url : String
  deriving DecidableEq

/-- The relational store. -/
structure DB where
  invoices : List Invoice
  customers : List Customer
  deriving DecidableEq

/-- How an action ends: a returned value (an optional error mapping and an
optional message), a redirect to a path, or an uncaught thrown error. -/
inductive Outcome (ε : Type) where
  | ret (errors : Option ε) (message : Option String)
  | redirected (path : String)
  | thrown (err : String)
  deriving DecidableEq

/-- The full effect of running an action: the store afterwards, the paths
passed to `revalidatePath` in order, and how the action ended. -/
structure ActionEffect (ε : Type) where
  db : DB
  revalidated : List String
  outcome : Outcome ε
  deriving DecidableEq

/-- The label carried by a modelled SQL failure. -/
def sqlError : String := "SqlError"

/-! The actions. Each SQL call site has a `Bool` parameter that is `true`
when that call throws. -/

/-- Shallow embedding of `createInvoice` (part_000 lines 61-99): validate,
convert the amount to cents, insert a row (the store-generated id is
`freshId`; the current calendar-date string computed by the source is the
parameter `today`), then revalidate and redirect. A failing INSERT is
caught and turned into a database-error message. -/
def createInvoice (db : DB) (insertFails : Bool) (freshId today : String)
    (form : InvoiceForm) : ActionEffect InvoiceFieldErrors :=
  match parseInvoiceForm form with
  | .error e => ⟨db, [], .ret (some e) (some "Missing Fields. Failed to Create Invoice.")⟩
  | .ok d =>
    let amountInCents := jsMul d.amount (JsVal.ofInt 100)
    if insertFails then
      ⟨db, [], .ret none (some "Database Error: Failed to Create Invoice.")⟩
    else
      ⟨{ db with invoices :=
           db.invoices ++ [⟨freshId, d.customerId, amountInCents, d.status, today⟩] },
       ["/dashboard/invoices"], .redirected "/dashboard/invoices"⟩

/-- Shallow embedding of `updateInvoice` (part_000 lines 101-136): validate,
convert the amount to cents, update the row with the given id (setting only
customer_id, amount and status), then revalidate and redirect. -/
def updateInvoice (db : DB) (updateFails : Bool) (id : String)
    (form : InvoiceForm) : ActionEffect InvoiceFieldErrors :=
  match parseInvoiceForm form with
  | .error e => ⟨db, [], .ret (some e) (some "Missing Fields. Failed to Update Invoice.")⟩
  | .ok d =>
    let amountInCents := jsMul d.amount (JsVal.ofInt 100)
    if updateFails then
      ⟨db, [], .ret none (some "Database Error: Failed to Update Invoice.")⟩
    else
      ⟨{ db with invoices :=
           db.invoices.map (fun inv =>
             if inv.id = id then
               { inv with customer_id := d.customerId, amount := amountInCents,
                          status := d.status }
             else inv) },
       ["/dashboard/invoices"], .redirected "/dashboard/invoices"⟩

/-- Shallow embedding of `deleteInvoice` (part_000 lines 138-146): delete
the row, revalidate, and return a message (no redirect). -/
def deleteInvoice (db : DB) (deleteFails : Bool) (id : String) :
    ActionEffect InvoiceFieldErrors :=
  if deleteFails then
    ⟨db, [], .ret none (some "Database Error: Failed to Delete Invoice.")⟩
  else
    ⟨{ db with invoices := db.invoices.filter (fun inv => decide (inv.id ≠ id)) },
     ["/dashboard/invoices"], .ret none (some "Deleted Invoice.")⟩

/-- Shallow embedding of `isEmailUnique` (part_000 lines 238-252): true
when no (other) customer row has the email. The JavaScript truthiness test
`if (customerId)` treats an absent id and the empty string as false, in
which case the no-exclusion query is used. -/
def isEmailUnique (db : DB) (email : String) (customerId : Option String) : Bool :=
  match customerId with
  | some cid =>
    if cid ≠ "" then
      !(db.customers.any (fun c => decide (c.email = email ∧ c.id ≠ cid)))
    else
      !(db.customers.any (fun c => decide (c.email = email)))
  | none => !(db.customers.any (fun c => decide (c.email = email)))

/-- Shallow embedding of `createCustomer` (part_000 lines 148-192): validate,
check email uniqueness (this query is outside the `try`, so its failure
propagates), insert (ON CONFLICT (id) DO NOTHING), revalidate, redirect. -/
def createCustomer (db : DB) (uniqueQueryFails insertFails : Bool) (freshId : String)
    (form : CustomerForm) : ActionEffect CustomerFieldErrors :=
  match parseCustomerForm form with
  | .error e => ⟨db, [], .ret (some e) (some "Missing Fields. Failed to Create Customer.")⟩
  | .ok d =>
    if uniqueQueryFails then ⟨db, [], .thrown sqlError⟩
    else if !(isEmailUnique db d.email none) then
      ⟨db, [], .ret (some ⟨[], ["Email is already is use."]⟩)
        (some "Missing Fields. Failed to Create Customer.")⟩
    else if insertFails then
      ⟨db, [], .ret none (some "Database Error: Failed to Create Customer.")⟩
    else
      ⟨{ db with customers :=
           if db.customers.any (fun c => decide (c.id = freshId)) then db.customers
           else db.customers ++ [⟨freshId, d.name, d.email, ""⟩] },
       ["/dashboard/customers"], .redirected "/dashboard/customers"⟩

/-- Shallow embedding of `updateCustomer` (part_000 lines 194-236): validate,
check email uniqueness excluding the record itself (this query is outside
the `try`, so its failure propagates), update the row, revalidate,
redirect. Both the validation-failure message and the uniqueness-failure
message are the source's literal "Missing Fields. Failed to Create
Customer." text. -/
def updateCustomer (db : DB) (uniqueQueryFails updateFails : Bool) (id : String)
    (form : CustomerForm) : ActionEffect CustomerFieldErrors :=
  match parseCustomerForm form with
  | .error e => ⟨db, [], .ret (some e) (some "Missing Fields. Failed to Create Customer.")⟩
  | .ok d =>
    if uniqueQueryFails then ⟨db, [], .thrown sqlError⟩
    else if !(isEmailUnique db d.email (some id)) then
      ⟨db, [], .ret (some ⟨[], ["Email is already is use."]⟩)
        (some "Missing Fields. Failed to Create Customer.")⟩
    else if updateFails then
      ⟨db, [], .ret none (some "Database Error: Failed to Update Customer.")⟩
    else
      ⟨{ db with customers :=
           db.customers.map (fun c =>
             if c.id = id then { c with name := d.name, email := d.email } else c) },
       ["/dashboard/customers"], .redirected "/dashboard/customers"⟩

/-- Shallow embedding of `deleteCustomer` (part_000 lines 254-271): inside
one `try`, query whether any invoice references the customer; if none
does, delete the row, revalidate and return a success message, otherwise
return the refusal message. Either query failing is caught. -/
def deleteCustomer (db : DB) (guardQueryFails deleteFails : Bool) (id : String) :
    ActionEffect CustomerFieldErrors :=
  if guardQueryFails then
    ⟨db, [], .ret none (some "Database Error: Failed to Delete Customer.")⟩
  else if db.invoices.any (fun inv => decide (inv.customer_id = id)) then
    ⟨db, [], .ret none (some "Cannot delete Customer who is already assigned to any Invoice.")⟩
  else if deleteFails then
    ⟨db, [], .ret none (some "Database Error: Failed to Delete Customer.")⟩
  else
    ⟨{ db with customers := db.customers.filter (fun c => decide (c.id ≠ id)) },
     ["/dashboard/customers"], .ret none (some "Deleted Customer.")⟩

/-- How the delegated `signIn` call ends: success, an authentication-
subsystem error carrying its type tag, or any other thrown error. -/
inductive SignInResult where
  | ok
  | authFailure (ty : String)
  | otherFailure (err : String)
  deriving DecidableEq

/-- How `authenticate` ends: a returned value (`none` models returning
`undefined`) or an uncaught rethrown error. -/
inductive AuthOutcome where
  | ret (s : Option String)
  | thrown (err : String)
  deriving DecidableEq

/-- Shallow embedding of `authenticate` (part_000 lines 273-290): delegate
to `signIn`; on an authentication-subsystem error, map the
credential-rejection type to a fixed string and every other type to a
generic string; rethrow anything else; return nothing on success. -/
def authenticate (r : SignInResult) : AuthOutcome :=
  match r with
  | .ok => .ret none
  | .authFailure ty =>
    if ty = "CredentialsSignin" then .ret (some "Invalid credentials.")
    else .ret (some "Something went wrong.")
  | .otherFailure e => .thrown e

deriving instance DecidableEq for Except

/-! Helper lemmas shared by the claim theorems. -/

/-- The denominator produced by `canonDyadic` is positive. -/
theorem canonDyadic_den_pos (m : Int) (k : Nat) : 0 < (canonDyadic m k).den := by
  induction k generalizing m with
  | zero => simp [canonDyadic]
  | succ k ih =>
    simp only [canonDyadic]
    split
    · exact ih _
    · exact Nat.two_pow_pos _

/-- The denominator produced by `floatRoundPos` is positive. -/
theorem floatRoundPos_den_pos (n d : Nat) : 0 < (floatRoundPos n d).den := by
  unfold floatRoundPos
  dsimp only
  split
  · exact canonDyadic_den_pos _ _
  · simp

/-- The denominator produced by `floatRound` is positive. -/
theorem floatRound_den_pos (v : JsVal) : 0 < (floatRound v).den := by
  unfold floatRound
  dsimp only
  split
  · simp
  · split
    · exact floatRoundPos_den_pos _ _
    · exact floatRoundPos_den_pos _ _

/-- Every finite double produced by the `Number(x)` model has a positive
denominator. -/
theorem jsNumber_den_pos (a : Option String) (v : JsVal) (h : jsNumber a = .val v) :
    0 < v.den := by
  cases a with
  | none =>
    simp only [jsNumber] at h
    cases h
    simp
  | some s =>
    simp only [jsNumber] at h
    split at h
    · cases h; simp
    · split at h
      · cases h
        exact floatRound_den_pos _
      · cases h

/-- A double whose value is nonpositive fails the greater-than-zero check. -/
theorem gt_zero_eq_false_of_nonpos (v : JsVal) (hd : 0 < v.den) (hle : v.toRat ≤ 0) :
    v.gt (JsVal.ofInt 0) = false := by
  have hden : (0 : ℚ) < (v.den : ℚ) := by exact_mod_cast hd
  have hnum : v.num ≤ 0 := by
    by_contra hpos
    push_neg at hpos
    have : 0 < v.toRat := by
      unfold JsVal.toRat
      apply div_pos _ hden
      exact_mod_cast hpos
    linarith
  simp only [JsVal.gt, JsVal.ofInt]
  simp only [decide_eq_false_iff_not, not_lt]
  calc v.num * (1 : Nat) = v.num := by simp
    _ ≤ 0 := hnum
    _ ≤ 0 * v.den := by simp

/-- A bad amount input makes the amount check fail. -/
theorem checkAmount_ne_nil_of_bad (a : Option String)
    (h : jsNumber a = .nan ∨ ∃ v, jsNumber a = .val v ∧ v.toRat ≤ 0) :
    checkAmount a ≠ [] := by
  unfold checkAmount
  rcases h with h | ⟨v, hv, hle⟩
  · rw [h]; simp
  · rw [hv]
    have hg := gt_zero_eq_false_of_nonpos v (jsNumber_den_pos a v hv) hle
    simp [hg]

/-- A bad status input makes the status check fail. -/
theorem checkStatus_ne_nil_of_bad (st : Option String)
    (h : st = none ∨ ∃ s, st = some s ∧ s ≠ "pending" ∧ s ≠ "paid") :
    checkStatus st ≠ [] := by
  rcases h with h | ⟨s, hs, h1, h2⟩
  · subst h; simp [checkStatus]
  · subst hs; simp [checkStatus, h1, h2]

/-- Invoice validation fails whenever some field check does. -/
theorem parseInvoiceForm_error (f : InvoiceForm)
    (h : ¬((invoiceFormErrors f).customerId = [] ∧ (invoiceFormErrors f).amount = [] ∧
        (invoiceFormErrors f).status = [])) :
    parseInvoiceForm f = .error (invoiceFormErrors f) := by
  unfold parseInvoiceForm
  dsimp only
  rw [if_neg h]

/-- C1: for the form fields amount "49.99", status "pending", customerId
"c1", `createInvoice` stores the amount as the integer 4999 (cents), sets
the stored date to the current calendar date (the `today` parameter), and
redirects to the invoices list. -/
theorem C1_createInvoice_concrete_scenario (db : DB) (freshId today : String) :
    createInvoice db false freshId today ⟨some "c1", some "49.99", some "pending"⟩ =
      ⟨⟨db.invoices ++ [⟨freshId, "c1", JsVal.ofInt 4999, "pending", today⟩], db.customers⟩,
       ["/dashboard/invoices"], .redirected "/dashboard/invoices"⟩ ∧
    (JsVal.ofInt 4999).toRat = 4999 := by
  constructor
  · have hp : parseInvoiceForm ⟨some "c1", some "49.99", some "pending"⟩ =
        .ok ⟨"c1", ⟨7035467042882847, 140737488355328⟩, "pending"⟩ := by decide
    have hm : jsMul ⟨7035467042882847, 140737488355328⟩ (JsVal.ofInt 100) =
        JsVal.ofInt 4999 := by decide
    simp [createInvoice, hp, hm]
  · norm_num [JsVal.toRat, JsVal.ofInt]

/-- C3: `deleteCustomer` on a customer referenced by at least one invoice
returns the refusal message and leaves the store untouched; on a customer
referenced by no invoice it deletes the row and returns the success
message. -/
theorem C3_deleteCustomer_guard :
    (∀ (db : DB) (id : String), (∃ inv ∈ db.invoices, inv.customer_id = id) →
      deleteCustomer db false false id =
        ⟨db, [], .ret none (some "Cannot delete Customer who is already assigned to any Invoice.")⟩) ∧
    (∀ (db : DB) (id : String), (∀ inv ∈ db.invoices, inv.customer_id ≠ id) →
      deleteCustomer db false false id =
        ⟨⟨db.invoices, db.customers.filter (fun c => decide (c.id ≠ id))⟩,
         ["/dashboard/customers"], .ret none (some "Deleted Customer.")⟩) := by
  constructor
  · rintro db id ⟨inv, hmem, heq⟩
    have hany : db.invoices.any (fun inv => decide (inv.customer_id = id)) = true :=
      List.any_eq_true.mpr ⟨inv, hmem, by simp [heq]⟩
    simp [deleteCustomer, hany]
  · intro db id hall
    have hany : db.invoices.any (fun inv => decide (inv.customer_id = id)) = false := by
      simp only [List.any_eq_false, decide_eq_true_eq]
      exact hall
    simp [deleteCustomer, hany]

/-- Witness for C3 at concrete stores. -/
theorem C3_deleteCustomer_guard_witness :
    deleteCustomer ⟨[⟨"i1", "5", JsVal.ofInt 4999, "pending", "2026-10-11"⟩],
        [⟨"5", "Ann", "a@x.com", ""⟩]⟩ false false "5" =
      ⟨⟨[⟨"i1", "5", JsVal.ofInt 4999, "pending", "2026-10-11"⟩],
        [⟨"5", "Ann", "a@x.com", ""⟩]⟩, [],
       .ret none (some "Cannot delete Customer who is already assigned to any Invoice.")⟩ ∧
    deleteCustomer ⟨[], [⟨"5", "Ann", "a@x.com", ""⟩]⟩ false false "5" =
      ⟨⟨[], []⟩, ["/dashboard/customers"], .ret none (some "Deleted Customer.")⟩ := by
  refine ⟨?_, ?_⟩
  · exact C3_deleteCustomer_guard.1 _ _ (by decide)
  · exact C3_deleteCustomer_guard.2 _ _ (by decide)

/-- C5: `authenticate` returns the fixed string "Invalid credentials." on
a credential-rejection error, a generic failure string on any other
authentication-subsystem error, and rethrows any unrecognized error. -/
theorem C5_authenticate_error_mapping :
    authenticate (.authFailure "CredentialsSignin") = .ret (some "Invalid credentials.") ∧
    (∀ ty, ty ≠ "CredentialsSignin" →
      authenticate (.authFailure ty) = .ret (some "Something went wrong.")) ∧
    (∀ e, authenticate (.otherFailure e) = .thrown e) := by
  refine ⟨rfl, ?_, fun e => rfl⟩
  intro ty h
  simp [authenticate, h]

/-- Witness for C5 at a concrete non-credential error type. -/
theorem C5_authenticate_error_mapping_witness :
    authenticate (.authFailure "CallbackRouteError") = .ret (some "Something went wrong.") :=
  C5_authenticate_error_mapping.2.1 "CallbackRouteError" (by decide)

/-- C9: when the delegated sign-in call succeeds, `authenticate` returns
`undefined` (modelled as `none`), not any string. -/
theorem C9_authenticate_success_returns_undefined :
    authenticate .ok = .ret none ∧ ∀ s, authenticate .ok ≠ .ret (some s) := by
  refine ⟨rfl, ?_⟩
  intro s h
  simp [authenticate] at h

/-- C10: on every validation failure and every email-uniqueness failure,
`updateCustomer` returns the message "Missing Fields. Failed to Create
Customer." — the text says Create although the operation is an update. -/
theorem C10_updateCustomer_create_message :
    (∀ (db : DB) (q u : Bool) (id : String) (form : CustomerForm) (e : CustomerFieldErrors),
      parseCustomerForm form = .error e →
      (updateCustomer db q u id form).outcome =
        .ret (some e) (some "Missing Fields. Failed to Create Customer.")) ∧
    (∀ (db : DB) (u : Bool) (id : String) (form : CustomerForm) (d : CustomerData),
      parseCustomerForm form = .ok d →
      isEmailUnique db d.email (some id) = false →
      (updateCustomer db false u id form).outcome =
        .ret (some ⟨[], ["Email is already is use."]⟩)
          (some "Missing Fields. Failed to Create Customer.")) := by
  constructor
  · intro db q u id form e he
    simp [updateCustomer, he]
  · intro db u id form d hd hu
    simp [updateCustomer, hd, hu]

/-- Witness for C10: a form with an empty name, and a valid form whose
email belongs to a different customer. -/
theorem C10_updateCustomer_create_message_witness :
    (updateCustomer ⟨[], []⟩ false false "5" ⟨some " ", some "a@x.com"⟩).outcome =
      .ret (some ⟨["Name is required"], []⟩)
        (some "Missing Fields. Failed to Create Customer.") ∧
    (updateCustomer ⟨[], [⟨"9", "Bob", "a@x.com", ""⟩]⟩ false false "5"
        ⟨some "Ann", some "a@x.com"⟩).outcome =
      .ret (some ⟨[], ["Email is already is use."]⟩)
        (some "Missing Fields. Failed to Create Customer.") := by
  constructor
  · exact C10_updateCustomer_create_message.1 _ false false _ _ _ (by decide)
  · exact C10_updateCustomer_create_message.2 _ false _ _ ⟨"Ann", "a@x.com"⟩ (by decide) (by decide)

/-- C4: for every amount input that is non-numeric or nonpositive, and for
every status value outside the enumeration, `createInvoice` and
`updateInvoice` return the corresponding field error in the errors mapping
with the generic message, as a normal return value, and issue no SQL
write (the store, and the revalidation list, are untouched). -/
theorem C4_invalid_amount_or_status :
    (∀ (db : DB) (iF : Bool) (fI t : String) (form : InvoiceForm),
      (jsNumber form.amount = .nan ∨ ∃ v, jsNumber form.amount = .val v ∧ v.toRat ≤ 0) →
      createInvoice db iF fI t form =
        ⟨db, [], .ret (some (invoiceFormErrors form))
          (some "Missing Fields. Failed to Create Invoice.")⟩ ∧
      (invoiceFormErrors form).amount ≠ []) ∧
    (∀ (db : DB) (uF : Bool) (id : String) (form : InvoiceForm),
      (jsNumber form.amount = .nan ∨ ∃ v, jsNumber form.amount = .val v ∧ v.toRat ≤ 0) →
      updateInvoice db uF id form =
        ⟨db, [], .ret (some (invoiceFormErrors form))
          (some "Missing Fields. Failed to Update Invoice.")⟩ ∧
      (invoiceFormErrors form).amount ≠ []) ∧
    (∀ (db : DB) (iF : Bool) (fI t : String) (form : InvoiceForm),
      (form.status = none ∨ ∃ s, form.status = some s ∧ s ≠ "pending" ∧ s ≠ "paid") →
      createInvoice db iF fI t form =
        ⟨db, [], .ret (some (invoiceFormErrors form))
          (some "Missing Fields. Failed to Create Invoice.")⟩ ∧
      (invoiceFormErrors form).status ≠ []) ∧
    (∀ (db : DB) (uF : Bool) (id : String) (form : InvoiceForm),
      (form.status = none ∨ ∃ s, form.status = some s ∧ s ≠ "pending" ∧ s ≠ "paid") →
      updateInvoice db uF id form =
        ⟨db, [], .ret (some (invoiceFormErrors form))
          (some "Missing Fields. Failed to Update Invoice.")⟩ ∧
      (invoiceFormErrors form).status ≠ []) := by
  have hamt : ∀ form : InvoiceForm,
      (jsNumber form.amount = .nan ∨ ∃ v, jsNumber form.amount = .val v ∧ v.toRat ≤ 0) →
      parseInvoiceForm form = .error (invoiceFormErrors form) ∧
      (invoiceFormErrors form).amount ≠ [] := by
    intro form h
    have hA : (invoiceFormErrors form).amount ≠ [] := by
      simpa [invoiceFormErrors] using checkAmount_ne_nil_of_bad form.amount h
    exact ⟨parseInvoiceForm_error form (fun hc => hA hc.2.1), hA⟩
  have hst : ∀ form : InvoiceForm,
      (form.status = none ∨ ∃ s, form.status = some s ∧ s ≠ "pending" ∧ s ≠ "paid") →
      parseInvoiceForm form = .error (invoiceFormErrors form) ∧
      (invoiceFormErrors form).status ≠ [] := by
    intro form h
    have hS : (invoiceFormErrors form).status ≠ [] := by
      simpa [invoiceFormErrors] using checkStatus_ne_nil_of_bad form.status h
    exact ⟨parseInvoiceForm_error form (fun hc => hS hc.2.2), hS⟩
  refine ⟨?_, ?_, ?_, ?_⟩
  · intro db iF fI t form h
    obtain ⟨hp, hA⟩ := hamt form h
    exact ⟨by simp [createInvoice, hp], hA⟩
  · intro db uF id form h
    obtain ⟨hp, hA⟩ := hamt form h
    exact ⟨by simp [updateInvoice, hp], hA⟩
  · intro db iF fI t form h
    obtain ⟨hp, hS⟩ := hst form h
    exact ⟨by simp [createInvoice, hp], hS⟩
  · intro db uF id form h
    obtain ⟨hp, hS⟩ := hst form h
    exact ⟨by simp [updateInvoice, hp], hS⟩

/-- Witness for C4: a non-numeric amount, a zero amount, and an
out-of-enumeration status, on a concrete store. -/
theorem C4_invalid_amount_or_status_witness :
    (createInvoice ⟨[], []⟩ false "i1" "2026-10-11" ⟨some "c1", some "abc", some "pending"⟩ =
      ⟨⟨[], []⟩, [], .ret (some (invoiceFormErrors ⟨some "c1", some "abc", some "pending"⟩))
        (some "Missing Fields. Failed to Create Invoice.")⟩ ∧
      (invoiceFormErrors ⟨some "c1", some "abc", some "pending"⟩).amount ≠ []) ∧
    (updateInvoice ⟨[], []⟩ false "i1" ⟨some "c1", some "0", some "paid"⟩ =
      ⟨⟨[], []⟩, [], .ret (some (invoiceFormErrors ⟨some "c1", some "0", some "paid"⟩))
        (some "Missing Fields. Failed to Update Invoice.")⟩ ∧
      (invoiceFormErrors ⟨some "c1", some "0", some "paid"⟩).amount ≠ []) ∧
    (createInvoice ⟨[], []⟩ false "i1" "2026-10-11" ⟨some "c1", some "5", some "draft"⟩ =
      ⟨⟨[], []⟩, [], .ret (some (invoiceFormErrors ⟨some "c1", some "5", some "draft"⟩))
        (some "Missing Fields. Failed to Create Invoice.")⟩ ∧
      (invoiceFormErrors ⟨some "c1", some "5", some "draft"⟩).status ≠ []) ∧
    (updateInvoice ⟨[], []⟩ false "i1" ⟨some "c1", some "5", some "draft"⟩ =
      ⟨⟨[], []⟩, [], .ret (some (invoiceFormErrors ⟨some "c1", some "5", some "draft"⟩))
        (some "Missing Fields. Failed to Update Invoice.")⟩ ∧
      (invoiceFormErrors ⟨some "c1", some "5", some "draft"⟩).status ≠ []) := by
  refine ⟨?_, ?_, ?_, ?_⟩
  · exact C4_invalid_amount_or_status.1 _ false "i1" "2026-10-11" _ (Or.inl (by decide))
  · exact C4_invalid_amount_or_status.2.1 _ false "i1" _
      (Or.inr ⟨⟨0, 1⟩, by decide, by norm_num [JsVal.toRat]⟩)
  · exact C4_invalid_amount_or_status.2.2.1 _ false "i1" "2026-10-11" _
      (Or.inr ⟨"draft", rfl, by decide, by decide⟩)
  · exact C4_invalid_amount_or_status.2.2.2 _ false "i1" _
      (Or.inr ⟨"draft", rfl, by decide, by decide⟩)

/-- Updating a row by id changes no date field. -/
theorem updateRows_map_date (l : List Invoice) (id cid : String) (a : JsVal) (st : String) :
    (l.map (fun inv =>
      if inv.id = id then { inv with customer_id := cid, amount := a, status := st }
      else inv)).map Invoice.date = l.map Invoice.date := by
  induction l with
  | nil => rfl
  | cons x xs ih => by_cases h : x.id = id <;> simp [h, ih]

/-- Updating a row by id leaves every row with a different id unchanged. -/
theorem updateRows_filter_ne (l : List Invoice) (id cid : String) (a : JsVal) (st : String) :
    ((l.map (fun inv =>
      if inv.id = id then { inv with customer_id := cid, amount := a, status := st }
      else inv)).filter (fun inv => !decide (inv.id = id))) =
      l.filter (fun inv => !decide (inv.id = id)) := by
  induction l with
  | nil => rfl
  | cons x xs ih => by_cases h : x.id = id <;> simp [h, ih, List.filter_cons]

/-- C8: `updateInvoice` never modifies any stored date (the dates of the
rows, in order, are unchanged), leaves every invoice row with a different
id unchanged, and leaves the customers table untouched. -/
theorem C8_updateInvoice_date_frame (db : DB) (uF : Bool) (id : String) (form : InvoiceForm) :
    ((updateInvoice db uF id form).db.invoices.map Invoice.date =
      db.invoices.map Invoice.date) ∧
    ((updateInvoice db uF id form).db.invoices.filter (fun inv => !decide (inv.id = id)) =
      db.invoices.filter (fun inv => !decide (inv.id = id))) ∧
    (updateInvoice db uF id form).db.customers = db.customers := by
  unfold updateInvoice
  cases hp : parseInvoiceForm form with
  | error e => simp
  | ok d =>
    cases uF with
    | false =>
      dsimp only
      exact ⟨updateRows_map_date _ _ _ _ _, updateRows_filter_ne _ _ _ _ _, rfl⟩
    | true => exact ⟨rfl, rfl, rfl⟩

/-- An email present in the store makes the no-exclusion uniqueness query
report non-unique. -/
theorem isEmailUnique_false_create (db : DB) (email : String)
    (h : ∃ c ∈ db.customers, c.email = email) :
    isEmailUnique db email none = false := by
  rcases h with ⟨c, hc, he⟩
  simp only [isEmailUnique, Bool.not_eq_false', List.any_eq_true, decide_eq_true_eq]
  exact ⟨c, hc, he⟩

/-- An email present on a row with a different id makes the uniqueness
query for an update report non-unique. -/
theorem isEmailUnique_false_update (db : DB) (email id : String)
    (h : ∃ c ∈ db.customers, c.email = email ∧ c.id ≠ id) :
    isEmailUnique db email (some id) = false := by
  rcases h with ⟨c, hc, he, hne⟩
  by_cases hid : id = ""
  · subst hid
    simp only [isEmailUnique, ne_eq, not_true_eq_false, if_false, Bool.not_eq_false',
      List.any_eq_true, decide_eq_true_eq]
    exact ⟨c, hc, he⟩
  · simp only [isEmailUnique, ne_eq, hid, not_false_eq_true, if_true, Bool.not_eq_false',
      List.any_eq_true, decide_eq_true_eq]
    exact ⟨c, hc, he, hne⟩

/-- An email held by no other row than (possibly) the record itself passes
the uniqueness query for an update with a truthy id. -/
theorem isEmailUnique_true_update (db : DB) (email id : String) (hid : id ≠ "")
    (h : ∀ c ∈ db.customers, c.email = email → c.id = id) :
    isEmailUnique db email (some id) = true := by
  simp only [isEmailUnique, ne_eq, hid, not_false_eq_true, if_true, Bool.not_eq_eq_eq_not,
    Bool.not_true, List.any_eq_false, decide_eq_true_eq]
  intro c hc hcontra
  exact hcontra.2 (h c hc hcontra.1)

/-- C2: an email already present on a different customer id makes
`createCustomer` and `updateCustomer` return the email field error and
perform no write; for `updateCustomer`, the same email already belonging
only to the record being updated is accepted (the uniqueness check
excludes that record), and the write proceeds. -/
theorem C2_email_uniqueness :
    (∀ (db : DB) (iF : Bool) (freshId : String) (form : CustomerForm) (d : CustomerData),
      parseCustomerForm form = .ok d →
      (∃ c ∈ db.customers, c.email = d.email) →
      createCustomer db false iF freshId form =
        ⟨db, [], .ret (some ⟨[], ["Email is already is use."]⟩)
          (some "Missing Fields. Failed to Create Customer.")⟩) ∧
    (∀ (db : DB) (uF : Bool) (id : String) (form : CustomerForm) (d : CustomerData),
      parseCustomerForm form = .ok d →
      (∃ c ∈ db.customers, c.email = d.email ∧ c.id ≠ id) →
      updateCustomer db false uF id form =
        ⟨db, [], .ret (some ⟨[], ["Email is already is use."]⟩)
          (some "Missing Fields. Failed to Create Customer.")⟩) ∧
    (∀ (db : DB) (id : String) (form : CustomerForm) (d : CustomerData),
      parseCustomerForm form = .ok d → id ≠ "" →
      (∀ c ∈ db.customers, c.email = d.email → c.id = id) →
      updateCustomer db false false id form =
        ⟨⟨db.invoices, db.customers.map (fun c =>
            if c.id = id then { c with name := d.name, email := d.email } else c)⟩,
         ["/dashboard/customers"], .redirected "/dashboard/customers"⟩) := by
  refine ⟨?_, ?_, ?_⟩
  · intro db iF freshId form d hd hex
    have hu := isEmailUnique_false_create db d.email hex
    simp [createCustomer, hd, hu]
  · intro db uF id form d hd hex
    have hu := isEmailUnique_false_update db d.email id hex
    simp [updateCustomer, hd, hu]
  · intro db id form d hd hid hall
    have hu := isEmailUnique_true_update db d.email id hid hall
    simp [updateCustomer, hd, hu]

/-- Witness for C2: email a@x.com submitted for id 5 while it belongs to
id 9 is rejected by both mutations with no write; the same email belonging
only to id 5 itself is accepted by the update. -/
theorem C2_email_uniqueness_witness :
    createCustomer ⟨[], [⟨"9", "Bob", "a@x.com", ""⟩]⟩ false false "c1"
        ⟨some "Ann", some "a@x.com"⟩ =
      ⟨⟨[], [⟨"9", "Bob", "a@x.com", ""⟩]⟩, [],
       .ret (some ⟨[], ["Email is already is use."]⟩)
         (some "Missing Fields. Failed to Create Customer.")⟩ ∧
    updateCustomer ⟨[], [⟨"9", "Bob", "a@x.com", ""⟩]⟩ false false "5"
        ⟨some "Ann", some "a@x.com"⟩ =
      ⟨⟨[], [⟨"9", "Bob", "a@x.com", ""⟩]⟩, [],
       .ret (some ⟨[], ["Email is already is use."]⟩)
         (some "Missing Fields. Failed to Create Customer.")⟩ ∧
    updateCustomer ⟨[], [⟨"5", "Ann", "a@x.com", ""⟩]⟩ false false "5"
        ⟨some "Anna", some "a@x.com"⟩ =
      ⟨⟨[], [⟨"5", "Anna", "a@x.com", ""⟩]⟩,
       ["/dashboard/customers"], .redirected "/dashboard/customers"⟩ := by
  refine ⟨?_, ?_, ?_⟩
  · exact C2_email_uniqueness.1 _ false "c1" _ ⟨"Ann", "a@x.com"⟩ (by decide) (by decide)
  · exact C2_email_uniqueness.2.1 _ false "5" _ ⟨"Ann", "a@x.com"⟩ (by decide) (by decide)
  · exact C2_email_uniqueness.2.2 _ "5" _ ⟨"Anna", "a@x.com"⟩ (by decide) (by decide) (by decide)

/-- C6 counterexample: in `createCustomer` the email-uniqueness SQL query
runs outside the try/catch, so its failure makes the mutation raise
instead of returning a Database Error result. -/
theorem C6_counterexample_unique_query_failure :
    (createCustomer ⟨[], []⟩ true false "c1" ⟨some "John", some "a@x.com"⟩).outcome =
      .thrown sqlError ∧
    ∀ (e : Option CustomerFieldErrors) (m : Option String),
      (createCustomer ⟨[], []⟩ true false "c1" ⟨some "John", some "a@x.com"⟩).outcome ≠
        .ret e m := by
  have h1 : (createCustomer ⟨[], []⟩ true false "c1" ⟨some "John", some "a@x.com"⟩).outcome =
      .thrown sqlError := by decide
  refine ⟨h1, ?_⟩
  intro e m h
  rw [h1] at h
  exact Outcome.noConfusion h

/-- C6 as amended: when the SQL statement inside a mutation's try/catch
fails (the write statement, and for `deleteCustomer` also the guard
query), the mutation does not raise: it returns its Database Error message
with no cache invalidation, no redirect and an unchanged store; a failure
of the email-uniqueness query of `createCustomer`/`updateCustomer`, which
runs outside the try, instead propagates as a raised error. -/
theorem C6_database_error_handling :
    (∀ (db : DB) (fI t : String) (form : InvoiceForm) (d : InvoiceData),
      parseInvoiceForm form = .ok d →
      createInvoice db true fI t form =
        ⟨db, [], .ret none (some "Database Error: Failed to Create Invoice.")⟩) ∧
    (∀ (db : DB) (id : String) (form : InvoiceForm) (d : InvoiceData),
      parseInvoiceForm form = .ok d →
      updateInvoice db true id form =
        ⟨db, [], .ret none (some "Database Error: Failed to Update Invoice.")⟩) ∧
    (∀ (db : DB) (id : String),
      deleteInvoice db true id =
        ⟨db, [], .ret none (some "Database Error: Failed to Delete Invoice.")⟩) ∧
    (∀ (db : DB) (fI : String) (form : CustomerForm) (d : CustomerData),
      parseCustomerForm form = .ok d → isEmailUnique db d.email none = true →
      createCustomer db false true fI form =
        ⟨db, [], .ret none (some "Database Error: Failed to Create Customer.")⟩) ∧
    (∀ (db : DB) (id : String) (form : CustomerForm) (d : CustomerData),
      parseCustomerForm form = .ok d → isEmailUnique db d.email (some id) = true →
      updateCustomer db false true id form =
        ⟨db, [], .ret none (some "Database Error: Failed to Update Customer.")⟩) ∧
    (∀ (db : DB) (id : String),
      deleteCustomer db true false id =
        ⟨db, [], .ret none (some "Database Error: Failed to Delete Customer.")⟩) ∧
    (∀ (db : DB) (id : String), (∀ inv ∈ db.invoices, inv.customer_id ≠ id) →
      deleteCustomer db false true id =
        ⟨db, [], .ret none (some "Database Error: Failed to Delete Customer.")⟩) ∧
    (∀ (db : DB) (iF : Bool) (fI : String) (form : CustomerForm) (d : CustomerData),
      parseCustomerForm form = .ok d →
      createCustomer db true iF fI form = ⟨db, [], .thrown sqlError⟩) ∧
    (∀ (db : DB) (uF : Bool) (id : String) (form : CustomerForm) (d : CustomerData),
      parseCustomerForm form = .ok d →
      updateCustomer db true uF id form = ⟨db, [], .thrown sqlError⟩) := by
  refine ⟨?_, ?_, ?_, ?_, ?_, ?_, ?_, ?_, ?_⟩
  · intro db fI t form d hd
    simp [createInvoice, hd]
  · intro db id form d hd
    simp [updateInvoice, hd]
  · intro db id
    rfl
  · intro db fI form d hd hu
    simp [createCustomer, hd, hu]
  · intro db id form d hd hu
    simp [updateCustomer, hd, hu]
  · intro db id
    rfl
  · intro db id hall
    have hany : db.invoices.any (fun inv => decide (inv.customer_id = id)) = false := by
      simp only [List.any_eq_false, decide_eq_true_eq]
      exact hall
    simp [deleteCustomer, hany]
  · intro db iF fI form d hd
    simp [createCustomer, hd]
  · intro db uF id form d hd
    simp [updateCustomer, hd]

/-- Witness for the amended C6 at concrete stores and forms. -/
theorem C6_database_error_handling_witness :
    createInvoice ⟨[], []⟩ true "i1" "2026-10-11" ⟨some "c1", some "5", some "paid"⟩ =
      ⟨⟨[], []⟩, [], .ret none (some "Database Error: Failed to Create Invoice.")⟩ ∧
    updateInvoice ⟨[], []⟩ true "i1" ⟨some "c1", some "5", some "paid"⟩ =
      ⟨⟨[], []⟩, [], .ret none (some "Database Error: Failed to Update Invoice.")⟩ ∧
    createCustomer ⟨[], []⟩ false true "c1" ⟨some "John", some "a@x.com"⟩ =
      ⟨⟨[], []⟩, [], .ret none (some "Database Error: Failed to Create Customer.")⟩ ∧
    updateCustomer ⟨[], []⟩ false true "5" ⟨some "John", some "a@x.com"⟩ =
      ⟨⟨[], []⟩, [], .ret none (some "Database Error: Failed to Update Customer.")⟩ ∧
    deleteCustomer ⟨[], [⟨"5", "Ann", "a@x.com", ""⟩]⟩ false true "5" =
      ⟨⟨[], [⟨"5", "Ann", "a@x.com", ""⟩]⟩, [],
       .ret none (some "Database Error: Failed to Delete Customer.")⟩ ∧
    updateCustomer ⟨[], []⟩ true false "5" ⟨some "John", some "a@x.com"⟩ =
      ⟨⟨[], []⟩, [], .thrown sqlError⟩ := by
  refine ⟨?_, ?_, ?_, ?_, ?_, ?_⟩
  · exact C6_database_error_handling.1 _ "i1" "2026-10-11" _ ⟨"c1", ⟨5, 1⟩, "paid"⟩ (by decide)
  · exact C6_database_error_handling.2.1 _ "i1" _ ⟨"c1", ⟨5, 1⟩, "paid"⟩ (by decide)
  · exact C6_database_error_handling.2.2.2.1 _ "c1" _ ⟨"John", "a@x.com"⟩ (by decide) (by decide)
  · exact C6_database_error_handling.2.2.2.2.1 _ "5" _ ⟨"John", "a@x.com"⟩ (by decide) (by decide)
  · exact C6_database_error_handling.2.2.2.2.2.2.1 _ "5" (by decide)
  · exact C6_database_error_handling.2.2.2.2.2.2.2.2 _ false "5" _ ⟨"John", "a@x.com"⟩ (by decide)

/-- C7: on every successful write the mutation revalidates the affected
listing path; the create and update mutations then redirect to the listing
view, while the two delete mutations return a message result and do not
redirect. -/
theorem C7_revalidate_and_redirect :
    (∀ (db : DB) (fI t : String) (form : InvoiceForm) (d : InvoiceData),
      parseInvoiceForm form = .ok d →
      (createInvoice db false fI t form).revalidated = ["/dashboard/invoices"] ∧
      (createInvoice db false fI t form).outcome = .redirected "/dashboard/invoices") ∧
    (∀ (db : DB) (id : String) (form : InvoiceForm) (d : InvoiceData),
      parseInvoiceForm form = .ok d →
      (updateInvoice db false id form).revalidated = ["/dashboard/invoices"] ∧
      (updateInvoice db false id form).outcome = .redirected "/dashboard/invoices") ∧
    (∀ (db : DB) (id : String),
      (deleteInvoice db false id).revalidated = ["/dashboard/invoices"] ∧
      (deleteInvoice db false id).outcome = .ret none (some "Deleted Invoice.")) ∧
    (∀ (db : DB) (fI : String) (form : CustomerForm) (d : CustomerData),
      parseCustomerForm form = .ok d → isEmailUnique db d.email none = true →
      (createCustomer db false false fI form).revalidated = ["/dashboard/customers"] ∧
      (createCustomer db false false fI form).outcome = .redirected "/dashboard/customers") ∧
    (∀ (db : DB) (id : String) (form : CustomerForm) (d : CustomerData),
      parseCustomerForm form = .ok d → isEmailUnique db d.email (some id) = true →
      (updateCustomer db false false id form).revalidated = ["/dashboard/customers"] ∧
      (updateCustomer db false false id form).outcome = .redirected "/dashboard/customers") ∧
    (∀ (db : DB) (id : String), (∀ inv ∈ db.invoices, inv.customer_id ≠ id) →
      (deleteCustomer db false false id).revalidated = ["/dashboard/customers"] ∧
      (deleteCustomer db false false id).outcome = .ret none (some "Deleted Customer.")) := by
  refine ⟨?_, ?_, ?_, ?_, ?_, ?_⟩
  · intro db fI t form d hd
    constructor <;> simp [createInvoice, hd]
  · intro db id form d hd
    constructor <;> simp [updateInvoice, hd]
  · intro db id
    exact ⟨rfl, rfl⟩
  · intro db fI form d hd hu
    constructor <;> simp [createCustomer, hd, hu]
  · intro db id form d hd hu
    constructor <;> simp [updateCustomer, hd, hu]
  · intro db id hall
    have hany : db.invoices.any (fun inv => decide (inv.customer_id = id)) = false := by
      simp only [List.any_eq_false, decide_eq_true_eq]
      exact hall
    constructor <;> simp [deleteCustomer, hany]

/-- Witness for C7 at concrete stores and forms. -/
theorem C7_revalidate_and_redirect_witness :
    ((createInvoice ⟨[], []⟩ false "i1" "2026-10-11"
        ⟨some "c1", some "5", some "paid"⟩).revalidated = ["/dashboard/invoices"] ∧
      (createInvoice ⟨[], []⟩ false "i1" "2026-10-11"
        ⟨some "c1", some "5", some "paid"⟩).outcome = .redirected "/dashboard/invoices") ∧
    ((updateInvoice ⟨[], []⟩ false "i1"
        ⟨some "c1", some "5", some "paid"⟩).revalidated = ["/dashboard/invoices"] ∧
      (updateInvoice ⟨[], []⟩ false "i1"
        ⟨some "c1", some "5", some "paid"⟩).outcome = .redirected "/dashboard/invoices") ∧
    ((deleteInvoice ⟨[], []⟩ false "i1").revalidated = ["/dashboard/invoices"] ∧
      (deleteInvoice ⟨[], []⟩ false "i1").outcome = .ret none (some "Deleted Invoice.")) ∧
    ((createCustomer ⟨[], []⟩ false false "c1"
        ⟨some "John", some "a@x.com"⟩).revalidated = ["/dashboard/customers"] ∧
      (createCustomer ⟨[], []⟩ false false "c1"
        ⟨some "John", some "a@x.com"⟩).outcome = .redirected "/dashboard/customers") ∧
    ((updateCustomer ⟨[], []⟩ false false "5"
        ⟨some "John", some "a@x.com"⟩).revalidated = ["/dashboard/customers"] ∧
      (updateCustomer ⟨[], []⟩ false false "5"
        ⟨some "John", some "a@x.com"⟩).outcome = .redirected "/dashboard/customers") ∧
    ((deleteCustomer ⟨[], [⟨"5", "Ann", "a@x.com", ""⟩]⟩ false false "5").revalidated =
        ["/dashboard/customers"] ∧
      (deleteCustomer ⟨[], [⟨"5", "Ann", "a@x.com", ""⟩]⟩ false false "5").outcome =
        .ret none (some "Deleted Customer.")) := by
  refine ⟨?_, ?_, ?_, ?_, ?_, ?_⟩
  · exact C7_revalidate_and_redirect.1 _ "i1" "2026-10-11" _ ⟨"c1", ⟨5, 1⟩, "paid"⟩ (by decide)
  · exact C7_revalidate_and_redirect.2.1 _ "i1" _ ⟨"c1", ⟨5, 1⟩, "paid"⟩ (by decide)
  · exact C7_revalidate_and_redirect.2.2.1 _ "i1"
  · exact C7_revalidate_and_redirect.2.2.2.1 _ "c1" _ ⟨"John", "a@x.com"⟩ (by decide) (by decide)
  · exact C7_revalidate_and_redirect.2.2.2.2.1 _ "5" _ ⟨"John", "a@x.com"⟩ (by decide) (by decide)
  · exact C7_revalidate_and_redirect.2.2.2.2.2 _ "5" (by decide)

end Dashboard
